import Mathlib

/-!
Shallow embedding of the WAFPolicy controller of the
coraza-kubernetes-operator repository (internal/controller:
utils.go `createOrUpdate`, `wafpolicy_controller.go` `Reconcile`,
`reconcileForGateway`, `reconcileForHTTPRoute`, `ensureEngine`,
`handleDeletion`, `setNotAccepted`, `findPoliciesForTarget`).

Kubernetes store interactions are modelled by an explicit `World`
describing the objects visible to the controller plus error oracles for
the fallible store calls, and every reconciliation pass returns both the
in-memory result and a trace of the store operations it performed.
-/

namespace Coraza

/-! ### Conditions (metav1.Condition and apimeta helpers) -/

/-- metav1.ConditionStatus: "True" | "False" | "Unknown". -/
inductive ConditionStatus where
  | isTrue
  | isFalse
  | isUnknown
deriving DecidableEq, Repr

/-- metav1.Condition. `LastTransitionTime` is wall-clock time and carries
no information used by the controller logic, so it is omitted. -/
structure Condition where
  type_ : String
  status : ConditionStatus
  observedGeneration : Int
  reason : String
  message : String
deriving DecidableEq, Repr

/-- apimeta.SetStatusCondition: replace the first condition of the same
type (keeping its position), or append when absent. -/
def setStatusCondition : List Condition → Condition → List Condition
  | [], c => [c]
  | x :: xs, c =>
      if x.type_ = c.type_ then c :: xs else x :: setStatusCondition xs c

/-- apimeta.RemoveStatusCondition: drop every condition of the given type. -/
def removeStatusCondition : List Condition → String → List Condition
  | [], _ => []
  | x :: xs, t =>
      if x.type_ = t then removeStatusCondition xs t
      else x :: removeStatusCondition xs t

/-- apimeta.FindStatusCondition: first condition of the given type. -/
def findCondition : List Condition → String → Option Condition
  | [], _ => none
  | x :: xs, t => if x.type_ = t then some x else findCondition xs t

/-! ### Policy, Engine, target objects -/

/-- The fields of a WAFPolicy read or written by the controller:
metadata (name, namespace, generation, deletionTimestamp, finalizers),
spec.targetRef{kind,name}, spec.ruleSet.name, spec.failurePolicy,
and status.conditions. -/
structure Policy where
  name : String
  namespace_ : String
  generation : Int
  deletionTimestamp : Option Nat
  finalizers : List String
  targetRefKind : String
  targetRefName : String
  ruleSetName : String
  failurePolicy : String
  conditions : List Condition
deriving DecidableEq, Repr

/-- const EngineNamePrefix = "wafpolicy-" -/
def EngineNamePrefix : String := "wafpolicy-"

/-- const wafPolicyFinalizer = "waf.k8s.coraza.io/wafpolicy-finalizer" -/
def wafPolicyFinalizer : String := "waf.k8s.coraza.io/wafpolicy-finalizer"

/-- WAFPolicyTranslatorConfig: operator-level defaults threaded into the
translation. -/
structure WAFPolicyTranslatorConfig where
  DefaultWasmImage : String
  DefaultPollInterval : Int
  EnvoyClusterName : String
deriving DecidableEq, Repr

/-- The EngineSpec fields set by `ensureEngine`'s mutate callback. -/
structure EngineSpec where
  ruleSetAPIVersion : String
  ruleSetKind : String
  ruleSetName : String
  failurePolicy : String
  wasmImage : String
  mode : String
  workloadSelector : List (String × String)
  pollIntervalSeconds : Int
deriving DecidableEq, Repr

/-- The Engine object as synthesized by `ensureEngine`:
name/namespace, the spec, and the controller owner reference
(namespace, name of the owning policy) set by SetControllerReference. -/
structure Engine where
  name : String
  namespace_ : String
  spec : EngineSpec
  ownerPolicy : Option (String × String)
deriving DecidableEq, Repr

/-- The body of `ensureEngine` up to the CreateOrUpdate call: the desired
Engine derived from the policy, the translator config and the resolved
workload-selector labels. -/
def buildEngine (cfg : WAFPolicyTranslatorConfig) (p : Policy)
    (workloadLabels : List (String × String)) : Engine :=
  { name := EngineNamePrefix ++ p.name
    namespace_ := p.namespace_
    spec :=
      { ruleSetAPIVersion := "waf.k8s.coraza.io/v1alpha1"
        ruleSetKind := "RuleSet"
        ruleSetName := p.ruleSetName
        failurePolicy := p.failurePolicy
        wasmImage := cfg.DefaultWasmImage
        mode := "gateway"
        workloadSelector := workloadLabels
        pollIntervalSeconds := cfg.DefaultPollInterval }
    ownerPolicy := some (p.namespace_, p.name) }

/-! ### createOrUpdate (utils.go) -/

/-- schema.GroupVersionKind. -/
structure GVK where
  group : String
  version : String
  kind : String
deriving DecidableEq, Repr

/-- gvk.Empty(): all three components empty. -/
def GVK.isEmpty (g : GVK) : Bool :=
  g.group = "" && g.version = "" && g.kind = ""

/-- The fields of an unstructured object that `createOrUpdate` touches. -/
structure UObj where
  gvk : GVK
  namespace_ : String
  name : String
  resourceVersion : String
deriving DecidableEq, Repr

/-- Outcome of a client Get in the `createOrUpdate` model. -/
inductive GetOutcome where
  | notFound
  | otherErr (msg : String)
  | found (resourceVersion : String)
deriving DecidableEq, Repr

/-- The behaviour of the Kubernetes client as seen by `createOrUpdate`:
what Get returns for a key, and whether Create/Update fail. -/
structure CUClient where
  get : GVK → String → String → GetOutcome
  createErr : Option String
  updateErr : Option String

/-- Store operations issued by `createOrUpdate`, in order. -/
inductive CUOp where
  | get (gvk : GVK) (namespace_ name : String)
  | create (obj : UObj)
  | update (obj : UObj)
deriving DecidableEq, Repr

/-- utils.go `createOrUpdate`: validate identity, default the namespace,
get by identity, then create (not found) or copy the resourceVersion and
update (found). Returns the error outcome and the trace of client calls. -/
def createOrUpdate (c : CUClient) (desired : UObj) :
    Except String Unit × List CUOp :=
  if desired.gvk.isEmpty then
    (.error "desired object must have GroupVersionKind set", [])
  else if desired.name = "" then
    (.error "desired object must have a name set", [])
  else
    let namespace_ := if desired.namespace_ = "" then "default" else desired.namespace_
    let getOp := CUOp.get desired.gvk namespace_ desired.name
    match c.get desired.gvk namespace_ desired.name with
    | .notFound =>
        match c.createErr with
        | some e =>
            (.error ("failed to create " ++ desired.gvk.kind ++ "/" ++ desired.name
              ++ " in namespace " ++ namespace_ ++ ": " ++ e),
             [getOp, .create desired])
        | none => (.ok (), [getOp, .create desired])
    | .otherErr e =>
        (.error ("failed to get " ++ desired.gvk.kind ++ "/" ++ desired.name
          ++ " in namespace " ++ namespace_ ++ ": " ++ e),
         [getOp])
    | .found rv =>
        let desired' := { desired with resourceVersion := rv }
        match c.updateErr with
        | some e =>
            (.error ("failed to update " ++ desired.gvk.kind ++ "/" ++ desired.name
              ++ " in namespace " ++ namespace_ ++ ": " ++ e),
             [getOp, .update desired'])
        | none => (.ok (), [getOp, .update desired'])

/-! ### The world visible to one WAFPolicy reconciliation pass -/

/-- One entry of an HTTPRoute's `spec.parentRefs` list as the controller
reads it through the unstructured API: either not a JSON object at all
(the `parentRefs[0].(map[string]interface{})` assertion fails), or an
object whose `name` field reads as the given string (`NestedString`
yields `""` when the field is absent or not a string). -/
inductive ParentRef where
  | malformed
  | ref (name : String)
deriving DecidableEq, Repr

/-- The fields of an HTTPRoute read by the controller. `parentRefs = none`
models `spec.parentRefs` absent or of the wrong type (`NestedSlice`
returns `found = false` or an error). -/
structure HTTPRoute where
  namespace_ : String
  name : String
  parentRefs : Option (List ParentRef)
deriving DecidableEq, Repr

/-- The cluster state and store-error oracles for one reconciliation
pass: which Gateways (by namespace, name) and HTTPRoutes exist, whether
target Gets fail with a non-NotFound error, whether the Engine
CreateOrUpdate fails, which OperationResult it reports on success, and
whether policy updates / status patches fail. -/
structure World where
  gateways : List (String × String)
  httproutes : List HTTPRoute
  targetGetError : Option String
  engineSyncError : Option String
  engineOpResult : String
  statusPatchError : Option String
  policyUpdateError : Option String
deriving Repr

/-- Store operations issued during a reconciliation pass, in order. -/
inductive Op where
  | updatePolicy (p : Policy)
  | getGateway (namespace_ name : String)
  | getHTTPRoute (namespace_ name : String)
  | engineUpsert (e : Engine)
  | statusPatch (conds : List Condition)
  | event (etype reason message : String)
deriving DecidableEq, Repr

/-- Result of one reconciliation pass: the ctrl.Result requeue flag, the
returned error, the policy's final in-memory state, and the trace of
store operations performed. -/
structure Outcome where
  requeue : Bool
  error : Option String
  policy : Option Policy
  ops : List Op
deriving DecidableEq, Repr

/-- Prefix extra operations onto an outcome's trace. -/
def Outcome.withOps (pre : List Op) (o : Outcome) : Outcome :=
  { o with ops := pre ++ o.ops }

/-- The condition-list effect of `setNotAccepted`: set Accepted=False
with the given reason/message, then remove Programmed. -/
def setNotAcceptedConditions (conds : List Condition) (generation : Int)
    (reason message : String) : List Condition :=
  removeStatusCondition
    (setStatusCondition conds
      { type_ := "Accepted", status := .isFalse, observedGeneration := generation
        reason := reason, message := message })
    "Programmed"

/-- The condition-list effect of `ensureEngine`'s success path: set
Accepted=True then Programmed=True. -/
def engineSuccessConditions (conds : List Condition) (generation : Int)
    (engineName opResult : String) : List Condition :=
  setStatusCondition
    (setStatusCondition conds
      { type_ := "Accepted", status := .isTrue, observedGeneration := generation
        reason := "Accepted", message := "WAFPolicy is accepted" })
    { type_ := "Programmed", status := .isTrue, observedGeneration := generation
      reason := "Programmed"
      message := "Engine \"" ++ engineName ++ "\" " ++ opResult }

/-- The condition-list effect of `ensureEngine`'s failure path: set
Programmed=False with reason EngineSyncFailed. -/
def engineFailureConditions (conds : List Condition) (generation : Int)
    (errMsg : String) : List Condition :=
  setStatusCondition conds
    { type_ := "Programmed", status := .isFalse, observedGeneration := generation
      reason := "EngineSyncFailed"
      message := "Failed to create/update Engine: " ++ errMsg }

/-- `setNotAccepted`: emit a Warning event, set the not-accepted
conditions in memory, and patch the status (the patch error, if any, is
returned). -/
def setNotAccepted (w : World) (p : Policy) (reason message : String) :
    Option String × Policy × List Op :=
  let conds := setNotAcceptedConditions p.conditions p.generation reason message
  let p' := { p with conditions := conds }
  (w.statusPatchError, p',
   [Op.event "Warning" reason message, Op.statusPatch conds])

/-- `ensureEngine`: build the desired Engine and CreateOrUpdate it. On
failure: Warning event, Programmed=False (EngineSyncFailed) patched
(patch errors only logged), and the sync error is returned. On success:
Accepted=True and Programmed=True patched (patch errors returned), then
a Normal Programmed event. -/
def ensureEngine (cfg : WAFPolicyTranslatorConfig) (w : World) (p : Policy)
    (workloadLabels : List (String × String)) : Outcome :=
  let engine := buildEngine cfg p workloadLabels
  match w.engineSyncError with
  | some e =>
      let conds := engineFailureConditions p.conditions p.generation e
      { requeue := false
        error := some e
        policy := some { p with conditions := conds }
        ops := [Op.engineUpsert engine,
                Op.event "Warning" "EngineSyncFailed"
                  ("Failed to create/update Engine: " ++ e),
                Op.statusPatch conds] }
  | none =>
      let conds := engineSuccessConditions p.conditions p.generation
        engine.name w.engineOpResult
      let p' := { p with conditions := conds }
      match w.statusPatchError with
      | some e =>
          { requeue := false, error := some e, policy := some p'
            ops := [Op.engineUpsert engine, Op.statusPatch conds] }
      | none =>
          { requeue := false, error := none, policy := some p'
            ops := [Op.engineUpsert engine, Op.statusPatch conds,
                    Op.event "Normal" "Programmed"
                      ("Engine " ++ engine.namespace_ ++ "/" ++ engine.name
                        ++ " " ++ w.engineOpResult)] }

/-- The outcome of a branch of the reconciler that ends in a
`setNotAccepted` call and returns its error, with `requeue` from the
returned ctrl.Result and `pre` the store operations already performed. -/
def notAcceptedOutcome (w : World) (p : Policy) (reason message : String)
    (requeue : Bool) (pre : List Op) : Outcome :=
  { requeue := requeue
    error := (setNotAccepted w p reason message).1
    policy := some (setNotAccepted w p reason message).2.1
    ops := pre ++ (setNotAccepted w p reason message).2.2 }

/-- `reconcileForGateway`: Get the target Gateway by name in the policy's
namespace; NotFound yields not-accepted (TargetNotFound) with a requeue;
other Get errors propagate; otherwise ensure the Engine with the
gateway-name workload selector. -/
def reconcileForGateway (cfg : WAFPolicyTranslatorConfig) (w : World)
    (p : Policy) : Outcome :=
  match w.targetGetError with
  | some e =>
      { requeue := false, error := some e, policy := some p
        ops := [Op.getGateway p.namespace_ p.targetRefName] }
  | none =>
      if (p.namespace_, p.targetRefName) ∈ w.gateways then
        (ensureEngine cfg w p
          [("gateway.networking.k8s.io/gateway-name", p.targetRefName)]).withOps
          [Op.getGateway p.namespace_ p.targetRefName]
      else
        notAcceptedOutcome w p "TargetNotFound"
          ("Gateway \"" ++ p.targetRefName ++ "\" not found") true
          [Op.getGateway p.namespace_ p.targetRefName]

/-- Lookup of an HTTPRoute by (namespace, name). -/
def findRoute (w : World) (namespace_ name : String) : Option HTTPRoute :=
  w.httproutes.find? (fun r => r.namespace_ = namespace_ && r.name = name)

/-- `reconcileForHTTPRoute`: Get the target HTTPRoute; NotFound yields
not-accepted (TargetNotFound) with a requeue; then read
`spec.parentRefs`: absent/empty ⇒ NoParentGateway, malformed or nameless
first entry ⇒ InvalidParentRef; otherwise ensure the Engine with the
first parent's name as the workload-selector value. -/
def reconcileForHTTPRoute (cfg : WAFPolicyTranslatorConfig) (w : World)
    (p : Policy) : Outcome :=
  match w.targetGetError with
  | some e =>
      { requeue := false, error := some e, policy := some p
        ops := [Op.getHTTPRoute p.namespace_ p.targetRefName] }
  | none =>
      match findRoute w p.namespace_ p.targetRefName with
      | none =>
          notAcceptedOutcome w p "TargetNotFound"
            ("HTTPRoute \"" ++ p.targetRefName ++ "\" not found") true
            [Op.getHTTPRoute p.namespace_ p.targetRefName]
      | some route =>
          match route.parentRefs with
          | none =>
              notAcceptedOutcome w p "NoParentGateway"
                ("HTTPRoute \"" ++ p.targetRefName ++ "\" has no parentRefs") false
                [Op.getHTTPRoute p.namespace_ p.targetRefName]
          | some [] =>
              notAcceptedOutcome w p "NoParentGateway"
                ("HTTPRoute \"" ++ p.targetRefName ++ "\" has no parentRefs") false
                [Op.getHTTPRoute p.namespace_ p.targetRefName]
          | some (ParentRef.malformed :: _) =>
              notAcceptedOutcome w p "InvalidParentRef"
                ("HTTPRoute \"" ++ p.targetRefName ++ "\" has invalid parentRef") false
                [Op.getHTTPRoute p.namespace_ p.targetRefName]
          | some (ParentRef.ref gatewayName :: _) =>
              if gatewayName = "" then
                notAcceptedOutcome w p "InvalidParentRef"
                  ("HTTPRoute \"" ++ p.targetRefName ++ "\" parentRef has no gateway name") false
                  [Op.getHTTPRoute p.namespace_ p.targetRefName]
              else
                (ensureEngine cfg w p
                  [("gateway.networking.k8s.io/gateway-name", gatewayName)]).withOps
                  [Op.getHTTPRoute p.namespace_ p.targetRefName]

/-- `handleDeletion`: when the finalizer is present, remove it
(controllerutil.RemoveFinalizer removes every occurrence) and update the
policy; otherwise do nothing. -/
def handleDeletion (w : World) (p : Policy) : Outcome :=
  if wafPolicyFinalizer ∈ p.finalizers then
    let p' := { p with finalizers := p.finalizers.filter (fun f => f ≠ wafPolicyFinalizer) }
    { requeue := false
      error := w.policyUpdateError
      policy := some p'
      ops := [Op.updatePolicy p'] }
  else
    { requeue := false, error := none, policy := some p, ops := [] }

/-- The target-kind dispatch of `Reconcile` (the switch statement). -/
def dispatchTargetKind (cfg : WAFPolicyTranslatorConfig) (w : World)
    (p : Policy) : Outcome :=
  if p.targetRefKind = "Gateway" then
    reconcileForGateway cfg w p
  else if p.targetRefKind = "HTTPRoute" then
    reconcileForHTTPRoute cfg w p
  else
    notAcceptedOutcome w p "InvalidTargetRef"
      ("Unsupported targetRef kind: " ++ p.targetRefKind) false []

/-- `Reconcile`: fetch the policy (`none` models NotFound: success,
no-op); handle deletion when the deletion timestamp is set; attach the
finalizer when absent (aborting on update failure); then dispatch on the
target kind. -/
def reconcile (cfg : WAFPolicyTranslatorConfig) (w : World)
    (policy? : Option Policy) : Outcome :=
  match policy? with
  | none => { requeue := false, error := none, policy := none, ops := [] }
  | some policy =>
      if policy.deletionTimestamp.isSome then
        handleDeletion w policy
      else if wafPolicyFinalizer ∈ policy.finalizers then
        dispatchTargetKind cfg w policy
      else
        let p' := { policy with finalizers := policy.finalizers ++ [wafPolicyFinalizer] }
        match w.policyUpdateError with
        | some e =>
            { requeue := false, error := some e, policy := some p'
              ops := [Op.updatePolicy p'] }
        | none =>
            (dispatchTargetKind cfg w p').withOps [Op.updatePolicy p']

/-- The final in-memory condition list of a pass. -/
def Outcome.conditions (o : Outcome) : List Condition :=
  match o.policy with
  | some p => p.conditions
  | none => []

/-! ### Watch fan-out (findPoliciesForTarget) -/

/-- `findPoliciesForTarget`: over the (namespace-scoped) listing of
WAFPolicies — `none` models a List error, which yields nil — keep the
policies whose targetRef kind and name match the event and emit their
(namespace, name) request keys. -/
def findPoliciesForTarget (listing : Option (List Policy))
    (kind name : String) : List (String × String) :=
  match listing with
  | none => []
  | some policies =>
      (policies.filter
        (fun p => p.targetRefKind = kind && p.targetRefName = name)).map
        (fun p => (p.namespace_, p.name))

/-! ### Derived characterization of target resolution -/

/-- Specification-level summary of target resolution: the workload-label
set on success, or the not-accepted (reason, message) on failure. Proved
to agree with what `reconcile` does; stated separately so theorems can
case on the resolution outcome. -/
def resolveTarget (w : World) (p : Policy) :
    Except (String × String) (List (String × String)) :=
  if p.targetRefKind = "Gateway" then
    if (p.namespace_, p.targetRefName) ∈ w.gateways then
      .ok [("gateway.networking.k8s.io/gateway-name", p.targetRefName)]
    else
      .error ("TargetNotFound", "Gateway \"" ++ p.targetRefName ++ "\" not found")
  else if p.targetRefKind = "HTTPRoute" then
    match findRoute w p.namespace_ p.targetRefName with
    | none => .error ("TargetNotFound", "HTTPRoute \"" ++ p.targetRefName ++ "\" not found")
    | some route =>
        match route.parentRefs with
        | none => .error ("NoParentGateway", "HTTPRoute \"" ++ p.targetRefName ++ "\" has no parentRefs")
        | some [] => .error ("NoParentGateway", "HTTPRoute \"" ++ p.targetRefName ++ "\" has no parentRefs")
        | some (ParentRef.malformed :: _) =>
            .error ("InvalidParentRef", "HTTPRoute \"" ++ p.targetRefName ++ "\" has invalid parentRef")
        | some (ParentRef.ref gatewayName :: _) =>
            if gatewayName = "" then
              .error ("InvalidParentRef", "HTTPRoute \"" ++ p.targetRefName ++ "\" parentRef has no gateway name")
            else
              .ok [("gateway.networking.k8s.io/gateway-name", gatewayName)]
  else
    .error ("InvalidTargetRef", "Unsupported targetRef kind: " ++ p.targetRefKind)

/-- The policy as it stands when the target-kind dispatch runs: unchanged
when the finalizer is already present, otherwise with the finalizer
appended (controllerutil.AddFinalizer). -/
def steadyPolicy (p : Policy) : Policy :=
  if wafPolicyFinalizer ∈ p.finalizers then p
  else { p with finalizers := p.finalizers ++ [wafPolicyFinalizer] }

/-- The mutual-exclusion invariant on a condition list: the Programmed
condition is never True while the Accepted condition is False. -/
def conditionsMutexOK (conds : List Condition) : Prop :=
  ∀ ca cp, findCondition conds "Accepted" = some ca →
    findCondition conds "Programmed" = some cp →
    ¬(ca.status = ConditionStatus.isFalse ∧ cp.status = ConditionStatus.isTrue)

/-! ### Concrete example inputs used for witnesses and counterexamples -/

/-- Example translator configuration. -/
def exCfg : WAFPolicyTranslatorConfig :=
  { DefaultWasmImage := "oci://ghcr.io/example/coraza-proxy-wasm:latest"
    DefaultPollInterval := 5
    EnvoyClusterName := "cluster-a" }

/-- Example translator configuration differing from `exCfg` only in
EnvoyClusterName. -/
def exCfgOtherCluster : WAFPolicyTranslatorConfig :=
  { DefaultWasmImage := "oci://ghcr.io/example/coraza-proxy-wasm:latest"
    DefaultPollInterval := 5
    EnvoyClusterName := "cluster-b" }

/-- A healthy world: one Gateway "gw" and two HTTPRoutes in "default". -/
def exWorld : World :=
  { gateways := [("default", "gw")]
    httproutes :=
      [{ namespace_ := "default", name := "r1", parentRefs := some [ParentRef.ref "gw"] },
       { namespace_ := "default", name := "r2", parentRefs := some [] }]
    targetGetError := none
    engineSyncError := none
    engineOpResult := "created"
    statusPatchError := none
    policyUpdateError := none }

/-- A world where the Engine CreateOrUpdate fails. -/
def exWorldSyncFail : World :=
  { exWorld with engineSyncError := some "boom" }

/-- A world with no Gateways at all. -/
def exWorldNoGw : World :=
  { exWorld with gateways := [] }

/-- A policy targeting Gateway "gw", finalizer already attached. -/
def exPolicyGw : Policy :=
  { name := "p1", namespace_ := "default", generation := 1
    deletionTimestamp := none, finalizers := [wafPolicyFinalizer]
    targetRefKind := "Gateway", targetRefName := "gw"
    ruleSetName := "rs", failurePolicy := "fail", conditions := [] }

/-- A policy targeting HTTPRoute "r2" (whose parentRefs is empty). -/
def exPolicyRoute : Policy :=
  { exPolicyGw with name := "p2", targetRefKind := "HTTPRoute", targetRefName := "r2" }

/-- A policy with a deletion timestamp set and its finalizer present. -/
def exPolicyDel : Policy :=
  { exPolicyGw with name := "p3", deletionTimestamp := some 3 }

/-- A client whose Get always reports NotFound and whose writes succeed. -/
def exClientNotFound : CUClient :=
  { get := fun _ _ _ => .notFound, createErr := none, updateErr := none }

/-- A client whose Get finds resourceVersion "7" and whose Update fails
with a conflict. -/
def exClientConflict : CUClient :=
  { get := fun _ _ _ => .found "7", createErr := none
    updateErr := some "Operation cannot be fulfilled: please apply your changes to the latest version" }

/-- A desired object with identity set but no namespace. -/
def exObjNoNs : UObj :=
  { gvk := { group := "waf.k8s.coraza.io", version := "v1alpha1", kind := "Engine" }
    namespace_ := "", name := "eng1", resourceVersion := "" }

/-- A desired object with full identity. -/
def exObj : UObj :=
  { gvk := { group := "waf.k8s.coraza.io", version := "v1alpha1", kind := "Engine" }
    namespace_ := "team-a", name := "eng1", resourceVersion := "" }

/-! ### Helper lemmas on condition-list operations -/

theorem findCondition_setStatusCondition_eq (l : List Condition) (c : Condition)
    (t : String) (h : c.type_ = t) :
    findCondition (setStatusCondition l c) t = some c := by
  induction l with
  | nil => simp [setStatusCondition, findCondition, h]
  | cons x xs ih =>
      by_cases hx : x.type_ = c.type_
      · simp [setStatusCondition, findCondition, hx, h]
      · have hxt : ¬(x.type_ = t) := by rw [← h]; exact hx
        simp [setStatusCondition, findCondition, hx, hxt, ih]

theorem findCondition_setStatusCondition_ne (l : List Condition) (c : Condition)
    (t : String) (h : ¬(c.type_ = t)) :
    findCondition (setStatusCondition l c) t = findCondition l t := by
  induction l with
  | nil => simp [setStatusCondition, findCondition, h]
  | cons x xs ih =>
      by_cases hx : x.type_ = c.type_
      · have hxt : ¬(x.type_ = t) := by rw [hx]; exact h
        simp [setStatusCondition, findCondition, hx, h, hxt]
      · simp [setStatusCondition, findCondition, hx, ih]

theorem findCondition_removeStatusCondition_self (l : List Condition) (t : String) :
    findCondition (removeStatusCondition l t) t = none := by
  induction l with
  | nil => simp [removeStatusCondition, findCondition]
  | cons x xs ih =>
      by_cases h : x.type_ = t
      · simp [removeStatusCondition, findCondition, h, ih]
      · simp [removeStatusCondition, findCondition, h, ih]

theorem findCondition_removeStatusCondition_ne (l : List Condition) (t t' : String)
    (h : ¬(t = t')) :
    findCondition (removeStatusCondition l t') t = findCondition l t := by
  induction l with
  | nil => simp [removeStatusCondition, findCondition]
  | cons x xs ih =>
      have h' : ¬(t' = t) := fun hc => h hc.symm
      by_cases hx : x.type_ = t'
      · have hxt : ¬(x.type_ = t) := by rw [hx]; exact h'
        simp [removeStatusCondition, findCondition, hx, hxt, h, h', ih]
      · by_cases hxt : x.type_ = t
        · simp [removeStatusCondition, findCondition, hx, hxt, h, h']
        · simp [removeStatusCondition, findCondition, hx, hxt, h, h', ih]

theorem mutexOK_setNotAcceptedConditions (conds : List Condition) (gen : Int)
    (r m : String) :
    conditionsMutexOK (setNotAcceptedConditions conds gen r m) := by
  intro ca cp _ hcp
  rw [setNotAcceptedConditions, findCondition_removeStatusCondition_self] at hcp
  exact absurd hcp (by simp)

theorem mutexOK_engineSuccessConditions (conds : List Condition) (gen : Int)
    (en oR : String) :
    conditionsMutexOK (engineSuccessConditions conds gen en oR) := by
  intro ca cp hca _ hand
  rw [engineSuccessConditions,
    findCondition_setStatusCondition_ne _ _ _ (by intro hc; exact absurd hc (by simp)),
    findCondition_setStatusCondition_eq _ _ _ rfl] at hca
  cases hca
  exact absurd hand.1 (by simp)

theorem mutexOK_engineFailureConditions (conds : List Condition) (gen : Int)
    (e : String) :
    conditionsMutexOK (engineFailureConditions conds gen e) := by
  intro ca cp _ hcp hand
  rw [engineFailureConditions,
    findCondition_setStatusCondition_eq _ _ _ rfl] at hcp
  cases hcp
  exact absurd hand.2 (by simp)

/-! ### Every status patch written by the reconciler satisfies the
mutual-exclusion invariant -/

theorem mutexOK_statusPatch_setNotAccepted (w : World) (p : Policy)
    (r m : String) (conds : List Condition)
    (h : Op.statusPatch conds ∈ (setNotAccepted w p r m).2.2) :
    conditionsMutexOK conds := by
  simp [setNotAccepted] at h
  subst h
  exact mutexOK_setNotAcceptedConditions _ _ _ _

theorem mutexOK_statusPatch_ensureEngine (cfg : WAFPolicyTranslatorConfig)
    (w : World) (p : Policy) (ls : List (String × String))
    (conds : List Condition)
    (h : Op.statusPatch conds ∈ (ensureEngine cfg w p ls).ops) :
    conditionsMutexOK conds := by
  unfold ensureEngine at h
  cases hs : w.engineSyncError with
  | some e =>
      rw [hs] at h
      simp at h
      subst h
      exact mutexOK_engineFailureConditions _ _ _
  | none =>
      rw [hs] at h
      cases hp : w.statusPatchError with
      | some e =>
          rw [hp] at h
          simp at h
          subst h
          exact mutexOK_engineSuccessConditions _ _ _ _
      | none =>
          rw [hp] at h
          simp at h
          subst h
          exact mutexOK_engineSuccessConditions _ _ _ _

theorem mutexOK_statusPatch_reconcileForGateway (cfg : WAFPolicyTranslatorConfig)
    (w : World) (p : Policy) (conds : List Condition)
    (h : Op.statusPatch conds ∈ (reconcileForGateway cfg w p).ops) :
    conditionsMutexOK conds := by
  unfold reconcileForGateway at h
  cases hte : w.targetGetError with
  | some e => rw [hte] at h; simp at h
  | none =>
      rw [hte] at h
      by_cases hgw : (p.namespace_, p.targetRefName) ∈ w.gateways
      · rw [if_pos hgw] at h
        simp only [Outcome.withOps, List.mem_append, List.mem_singleton] at h
        rcases h with h | h
        · exact absurd h (by simp)
        · exact mutexOK_statusPatch_ensureEngine _ _ _ _ _ h
      · rw [if_neg hgw] at h
        simp [notAcceptedOutcome, setNotAccepted] at h
        subst h
        exact mutexOK_setNotAcceptedConditions _ _ _ _

theorem mutexOK_statusPatch_reconcileForHTTPRoute (cfg : WAFPolicyTranslatorConfig)
    (w : World) (p : Policy) (conds : List Condition)
    (h : Op.statusPatch conds ∈ (reconcileForHTTPRoute cfg w p).ops) :
    conditionsMutexOK conds := by
  unfold reconcileForHTTPRoute at h
  cases hte : w.targetGetError with
  | some e => rw [hte] at h; simp at h
  | none =>
      rw [hte] at h
      cases hr : findRoute w p.namespace_ p.targetRefName with
      | none =>
          rw [hr] at h
          simp [notAcceptedOutcome, setNotAccepted] at h
          subst h
          exact mutexOK_setNotAcceptedConditions _ _ _ _
      | some route =>
          rw [hr] at h
          dsimp only at h
          cases hpr : route.parentRefs with
          | none =>
              rw [hpr] at h
              simp [notAcceptedOutcome, setNotAccepted] at h
              subst h
              exact mutexOK_setNotAcceptedConditions _ _ _ _
          | some prs =>
              rw [hpr] at h
              cases prs with
              | nil =>
                  simp [notAcceptedOutcome, setNotAccepted] at h
                  subst h
                  exact mutexOK_setNotAcceptedConditions _ _ _ _
              | cons pr rest =>
                  cases pr with
                  | malformed =>
                      simp [notAcceptedOutcome, setNotAccepted] at h
                      subst h
                      exact mutexOK_setNotAcceptedConditions _ _ _ _
                  | ref g =>
                      dsimp only at h
                      by_cases hg : g = ""
                      · rw [if_pos hg] at h
                        simp [notAcceptedOutcome, setNotAccepted] at h
                        subst h
                        exact mutexOK_setNotAcceptedConditions _ _ _ _
                      · rw [if_neg hg] at h
                        simp only [Outcome.withOps, List.mem_append,
                          List.mem_singleton] at h
                        rcases h with h | h
                        · exact absurd h (by simp)
                        · exact mutexOK_statusPatch_ensureEngine _ _ _ _ _ h

theorem mutexOK_statusPatch_dispatch (cfg : WAFPolicyTranslatorConfig)
    (w : World) (p : Policy) (conds : List Condition)
    (h : Op.statusPatch conds ∈ (dispatchTargetKind cfg w p).ops) :
    conditionsMutexOK conds := by
  unfold dispatchTargetKind at h
  by_cases hk : p.targetRefKind = "Gateway"
  · rw [if_pos hk] at h
    exact mutexOK_statusPatch_reconcileForGateway _ _ _ _ h
  · rw [if_neg hk] at h
    by_cases hk' : p.targetRefKind = "HTTPRoute"
    · rw [if_pos hk'] at h
      exact mutexOK_statusPatch_reconcileForHTTPRoute _ _ _ _ h
    · rw [if_neg hk'] at h
      simp [notAcceptedOutcome, setNotAccepted] at h
      subst h
      exact mutexOK_setNotAcceptedConditions _ _ _ _

theorem mutexOK_statusPatch_reconcile (cfg : WAFPolicyTranslatorConfig)
    (w : World) (policy? : Option Policy) (conds : List Condition)
    (h : Op.statusPatch conds ∈ (reconcile cfg w policy?).ops) :
    conditionsMutexOK conds := by
  unfold reconcile at h
  cases policy? with
  | none => simp at h
  | some p =>
      simp only at h
      by_cases hdt : p.deletionTimestamp.isSome
      · rw [if_pos hdt] at h
        unfold handleDeletion at h
        by_cases hf : wafPolicyFinalizer ∈ p.finalizers
        · rw [if_pos hf] at h; simp at h
        · rw [if_neg hf] at h; simp at h
      · rw [if_neg hdt] at h
        by_cases hf : wafPolicyFinalizer ∈ p.finalizers
        · rw [if_pos hf] at h
          exact mutexOK_statusPatch_dispatch _ _ _ _ h
        · rw [if_neg hf] at h
          cases hpu : w.policyUpdateError with
          | some e => rw [hpu] at h; simp at h
          | none =>
              rw [hpu] at h
              simp only [Outcome.withOps, List.mem_append,
                List.mem_singleton] at h
              rcases h with h | h
              · exact absurd h (by simp)
              · exact mutexOK_statusPatch_dispatch _ _ _ _ h

/-! ### Bridging lemmas: reconcile vs. resolveTarget -/

theorem withOps_conditions (pre : List Op) (o : Outcome) :
    (o.withOps pre).conditions = o.conditions := rfl

theorem ensureEngine_conditions_sync_ok (cfg : WAFPolicyTranslatorConfig)
    (w : World) (p : Policy) (ls : List (String × String))
    (h : w.engineSyncError = none) :
    (ensureEngine cfg w p ls).conditions =
      engineSuccessConditions p.conditions p.generation
        (EngineNamePrefix ++ p.name) w.engineOpResult := by
  unfold ensureEngine
  rw [h]
  cases hp : w.statusPatchError <;> rfl

theorem ensureEngine_conditions_sync_err (cfg : WAFPolicyTranslatorConfig)
    (w : World) (p : Policy) (ls : List (String × String)) (e : String)
    (h : w.engineSyncError = some e) :
    (ensureEngine cfg w p ls).conditions =
      engineFailureConditions p.conditions p.generation e := by
  unfold ensureEngine
  rw [h]
  rfl

theorem dispatchResolveCases (cfg : WAFPolicyTranslatorConfig) (w : World)
    (p : Policy) (hge : w.targetGetError = none) :
    (∃ ls, resolveTarget w p = .ok ls ∧
       (dispatchTargetKind cfg w p).conditions = (ensureEngine cfg w p ls).conditions) ∨
    (∃ r m, resolveTarget w p = .error (r, m) ∧
       (dispatchTargetKind cfg w p).conditions =
         setNotAcceptedConditions p.conditions p.generation r m) := by
  by_cases hk : p.targetRefKind = "Gateway"
  · by_cases hgw : (p.namespace_, p.targetRefName) ∈ w.gateways
    · refine Or.inl ⟨[("gateway.networking.k8s.io/gateway-name", p.targetRefName)], ?_, ?_⟩
      · simp [resolveTarget, hk, hgw]
      · simp [dispatchTargetKind, reconcileForGateway, hk, hgw, hge,
          Outcome.withOps, Outcome.conditions]
    · refine Or.inr ⟨"TargetNotFound",
        "Gateway \"" ++ p.targetRefName ++ "\" not found", ?_, ?_⟩
      · simp [resolveTarget, hk, hgw]
      · simp [dispatchTargetKind, reconcileForGateway, hk, hgw, hge,
          notAcceptedOutcome, setNotAccepted, Outcome.conditions]
  · by_cases hk' : p.targetRefKind = "HTTPRoute"
    · cases hr : findRoute w p.namespace_ p.targetRefName with
      | none =>
          refine Or.inr ⟨"TargetNotFound",
            "HTTPRoute \"" ++ p.targetRefName ++ "\" not found", ?_, ?_⟩
          · simp [resolveTarget, hk, hk', hr]
          · simp [dispatchTargetKind, reconcileForHTTPRoute, hk, hk', hr, hge,
              notAcceptedOutcome, setNotAccepted, Outcome.conditions]
      | some route =>
          cases hpr : route.parentRefs with
          | none =>
              refine Or.inr ⟨"NoParentGateway",
                "HTTPRoute \"" ++ p.targetRefName ++ "\" has no parentRefs", ?_, ?_⟩
              · simp [resolveTarget, hk, hk', hr, hpr]
              · simp [dispatchTargetKind, reconcileForHTTPRoute, hk, hk', hr, hpr,
                  hge, notAcceptedOutcome, setNotAccepted, Outcome.conditions]
          | some prs =>
              cases prs with
              | nil =>
                  refine Or.inr ⟨"NoParentGateway",
                    "HTTPRoute \"" ++ p.targetRefName ++ "\" has no parentRefs", ?_, ?_⟩
                  · simp [resolveTarget, hk, hk', hr, hpr]
                  · simp [dispatchTargetKind, reconcileForHTTPRoute, hk, hk', hr,
                      hpr, hge, notAcceptedOutcome, setNotAccepted, Outcome.conditions]
              | cons pr rest =>
                  cases pr with
                  | malformed =>
                      refine Or.inr ⟨"InvalidParentRef",
                        "HTTPRoute \"" ++ p.targetRefName ++ "\" has invalid parentRef", ?_, ?_⟩
                      · simp [resolveTarget, hk, hk', hr, hpr]
                      · simp [dispatchTargetKind, reconcileForHTTPRoute, hk, hk',
                          hr, hpr, hge, notAcceptedOutcome, setNotAccepted,
                          Outcome.conditions]
                  | ref g =>
                      by_cases hg : g = ""
                      · refine Or.inr ⟨"InvalidParentRef",
                          "HTTPRoute \"" ++ p.targetRefName ++ "\" parentRef has no gateway name", ?_, ?_⟩
                        · simp [resolveTarget, hk, hk', hr, hpr, hg]
                        · simp [dispatchTargetKind, reconcileForHTTPRoute, hk, hk',
                            hr, hpr, hg, hge, notAcceptedOutcome, setNotAccepted,
                            Outcome.conditions]
                      · refine Or.inl ⟨[("gateway.networking.k8s.io/gateway-name", g)], ?_, ?_⟩
                        · simp [resolveTarget, hk, hk', hr, hpr, hg]
                        · simp [dispatchTargetKind, reconcileForHTTPRoute, hk, hk',
                            hr, hpr, hg, hge, Outcome.withOps, Outcome.conditions]
    · refine Or.inr ⟨"InvalidTargetRef",
        "Unsupported targetRef kind: " ++ p.targetRefKind, ?_, ?_⟩
      · simp [resolveTarget, hk, hk']
      · simp [dispatchTargetKind, hk, hk', notAcceptedOutcome, setNotAccepted,
          Outcome.conditions]

theorem resolveTarget_error_reason (w : World) (p : Policy) (r m : String)
    (h : resolveTarget w p = .error (r, m)) :
    r = "TargetNotFound" ∨ r = "NoParentGateway" ∨ r = "InvalidParentRef" ∨
      r = "InvalidTargetRef" := by
  by_cases hk : p.targetRefKind = "Gateway"
  · by_cases hgw : (p.namespace_, p.targetRefName) ∈ w.gateways
    · simp [resolveTarget, hk, hgw] at h
    · simp [resolveTarget, hk, hgw] at h
      exact Or.inl h.1.symm
  · by_cases hk' : p.targetRefKind = "HTTPRoute"
    · cases hr : findRoute w p.namespace_ p.targetRefName with
      | none =>
          simp [resolveTarget, hk, hk', hr] at h
          exact Or.inl h.1.symm
      | some route =>
          cases hpr : route.parentRefs with
          | none =>
              simp [resolveTarget, hk, hk', hr, hpr] at h
              exact Or.inr (Or.inl h.1.symm)
          | some prs =>
              cases prs with
              | nil =>
                  simp [resolveTarget, hk, hk', hr, hpr] at h
                  exact Or.inr (Or.inl h.1.symm)
              | cons pr rest =>
                  cases pr with
                  | malformed =>
                      simp [resolveTarget, hk, hk', hr, hpr] at h
                      exact Or.inr (Or.inr (Or.inl h.1.symm))
                  | ref g =>
                      by_cases hg : g = ""
                      · simp [resolveTarget, hk, hk', hr, hpr, hg] at h
                        exact Or.inr (Or.inr (Or.inl h.1.symm))
                      · simp [resolveTarget, hk, hk', hr, hpr, hg] at h
    · simp [resolveTarget, hk, hk'] at h
      exact Or.inr (Or.inr (Or.inr h.1.symm))

theorem steadyPolicy_fields (p : Policy) :
    (steadyPolicy p).conditions = p.conditions ∧
    (steadyPolicy p).generation = p.generation ∧
    (steadyPolicy p).name = p.name ∧
    (steadyPolicy p).namespace_ = p.namespace_ := by
  unfold steadyPolicy
  split
  · exact ⟨rfl, rfl, rfl, rfl⟩
  · exact ⟨rfl, rfl, rfl, rfl⟩

theorem resolveTarget_steadyPolicy (w : World) (p : Policy) :
    resolveTarget w (steadyPolicy p) = resolveTarget w p := by
  unfold steadyPolicy
  split
  · rfl
  · rfl

theorem reconcile_steady (cfg : WAFPolicyTranslatorConfig) (w : World)
    (p : Policy) (hdt : p.deletionTimestamp = none)
    (hpu : w.policyUpdateError = none) :
    reconcile cfg w (some p) =
      if wafPolicyFinalizer ∈ p.finalizers then
        dispatchTargetKind cfg w p
      else
        (dispatchTargetKind cfg w (steadyPolicy p)).withOps
          [Op.updatePolicy (steadyPolicy p)] := by
  unfold reconcile steadyPolicy
  by_cases hf : wafPolicyFinalizer ∈ p.finalizers
  · simp [hdt, hf]
  · simp [hdt, hf, hpu]

/-! ### Condition lookups after each status-writing operation -/

theorem findCondition_setNotAccepted_accepted (conds : List Condition)
    (gen : Int) (r m : String) :
    findCondition (setNotAcceptedConditions conds gen r m) "Accepted" =
      some { type_ := "Accepted", status := .isFalse, observedGeneration := gen
             reason := r, message := m } := by
  rw [setNotAcceptedConditions,
    findCondition_removeStatusCondition_ne _ _ _ (by simp),
    findCondition_setStatusCondition_eq _ _ _ rfl]

theorem findCondition_engineSuccess_accepted (conds : List Condition)
    (gen : Int) (en oR : String) :
    findCondition (engineSuccessConditions conds gen en oR) "Accepted" =
      some { type_ := "Accepted", status := .isTrue, observedGeneration := gen
             reason := "Accepted", message := "WAFPolicy is accepted" } := by
  rw [engineSuccessConditions,
    findCondition_setStatusCondition_ne _ _ _ (by simp),
    findCondition_setStatusCondition_eq _ _ _ rfl]

theorem findCondition_engineFailure_accepted (conds : List Condition)
    (gen : Int) (e : String) :
    findCondition (engineFailureConditions conds gen e) "Accepted" =
      findCondition conds "Accepted" := by
  rw [engineFailureConditions,
    findCondition_setStatusCondition_ne _ _ _ (by simp)]

theorem findCondition_engineFailure_programmed (conds : List Condition)
    (gen : Int) (e : String) :
    findCondition (engineFailureConditions conds gen e) "Programmed" =
      some { type_ := "Programmed", status := .isFalse, observedGeneration := gen
             reason := "EngineSyncFailed"
             message := "Failed to create/update Engine: " ++ e } := by
  rw [engineFailureConditions,
    findCondition_setStatusCondition_eq _ _ _ rfl]

/-! ### Branch-shape lemmas for the dispatch -/

theorem dispatchTargetKind_gateway (cfg : WAFPolicyTranslatorConfig)
    (w : World) (p : Policy) (hk : p.targetRefKind = "Gateway") :
    dispatchTargetKind cfg w p = reconcileForGateway cfg w p := by
  unfold dispatchTargetKind
  rw [if_pos hk]

theorem dispatchTargetKind_httproute (cfg : WAFPolicyTranslatorConfig)
    (w : World) (p : Policy) (hk : p.targetRefKind = "HTTPRoute") :
    dispatchTargetKind cfg w p = reconcileForHTTPRoute cfg w p := by
  unfold dispatchTargetKind
  have hk' : ¬(p.targetRefKind = "Gateway") := by rw [hk]; simp
  rw [if_neg hk', if_pos hk]

theorem reconcileForGateway_notfound (cfg : WAFPolicyTranslatorConfig)
    (w : World) (p : Policy) (hge : w.targetGetError = none)
    (hgw : (p.namespace_, p.targetRefName) ∉ w.gateways) :
    reconcileForGateway cfg w p =
      notAcceptedOutcome w p "TargetNotFound"
        ("Gateway \"" ++ p.targetRefName ++ "\" not found") true
        [Op.getGateway p.namespace_ p.targetRefName] := by
  unfold reconcileForGateway
  rw [hge]
  dsimp only
  rw [if_neg hgw]

theorem engineUpsert_mem_ensureEngine (cfg : WAFPolicyTranslatorConfig)
    (w : World) (p : Policy) (ls : List (String × String)) :
    Op.engineUpsert (buildEngine cfg p ls) ∈ (ensureEngine cfg w p ls).ops := by
  unfold ensureEngine
  cases hs : w.engineSyncError with
  | some e => simp
  | none => cases hp : w.statusPatchError with
      | some e => simp
      | none => simp

/-- Per-pass summary of the dispatch's condition writes, by resolution
outcome. -/
theorem dispatch_conditions_summary (cfg : WAFPolicyTranslatorConfig)
    (w : World) (q : Policy) (hge : w.targetGetError = none) :
    (∀ ls, resolveTarget w q = .ok ls → w.engineSyncError = none →
       findCondition (dispatchTargetKind cfg w q).conditions "Accepted" =
         some { type_ := "Accepted", status := .isTrue, observedGeneration := q.generation
                reason := "Accepted", message := "WAFPolicy is accepted" }) ∧
    (∀ r m, resolveTarget w q = .error (r, m) →
       findCondition (dispatchTargetKind cfg w q).conditions "Accepted" =
         some { type_ := "Accepted", status := .isFalse, observedGeneration := q.generation
                reason := r, message := m }) ∧
    (∀ ls e, resolveTarget w q = .ok ls → w.engineSyncError = some e →
       findCondition (dispatchTargetKind cfg w q).conditions "Accepted" =
         findCondition q.conditions "Accepted" ∧
       findCondition (dispatchTargetKind cfg w q).conditions "Programmed" =
         some { type_ := "Programmed", status := .isFalse, observedGeneration := q.generation
                reason := "EngineSyncFailed"
                message := "Failed to create/update Engine: " ++ e }) := by
  rcases dispatchResolveCases cfg w q hge with ⟨ls0, hok, hcond⟩ | ⟨r0, m0, herr, hcond⟩
  · refine ⟨?_, ?_, ?_⟩
    · intro ls h hsync
      rw [hcond, ensureEngine_conditions_sync_ok cfg w q ls0 hsync,
        findCondition_engineSuccess_accepted]
    · intro r m h
      rw [hok] at h
      simp at h
    · intro ls e h hsync
      rw [hcond, ensureEngine_conditions_sync_err cfg w q ls0 e hsync]
      exact ⟨findCondition_engineFailure_accepted _ _ _,
        findCondition_engineFailure_programmed _ _ _⟩
  · refine ⟨?_, ?_, ?_⟩
    · intro ls h _
      rw [herr] at h
      simp at h
    · intro r m h
      rw [herr] at h
      simp only [Except.error.injEq, Prod.mk.injEq] at h
      obtain ⟨hr, hm⟩ := h
      subst hr
      subst hm
      rw [hcond, findCondition_setNotAccepted_accepted]
    · intro ls e h _
      rw [herr] at h
      simp at h

/-! ### Claim theorems -/

/-- C1: every Engine synthesized (and upserted) by ensureEngine has name
"wafpolicy-" ++ the policy's name and lives in the policy's namespace. -/
theorem c1_engine_name_and_namespace (cfg : WAFPolicyTranslatorConfig)
    (w : World) (p : Policy) (labels : List (String × String)) (e : Engine)
    (h : Op.engineUpsert e ∈ (ensureEngine cfg w p labels).ops) :
    e.name = "wafpolicy-" ++ p.name ∧ e.namespace_ = p.namespace_ := by
  unfold ensureEngine at h
  cases hs : w.engineSyncError with
  | some err =>
      rw [hs] at h
      simp at h
      subst h
      exact ⟨rfl, rfl⟩
  | none =>
      rw [hs] at h
      cases hp : w.statusPatchError with
      | some err =>
          rw [hp] at h
          simp at h
          subst h
          exact ⟨rfl, rfl⟩
      | none =>
          rw [hp] at h
          simp at h
          subst h
          exact ⟨rfl, rfl⟩

/-- C1 witness: concrete instantiation on the example policy. -/
theorem c1_engine_name_and_namespace_witness :
    (buildEngine exCfg exPolicyGw
      [("gateway.networking.k8s.io/gateway-name", "gw")]).name =
        "wafpolicy-" ++ exPolicyGw.name ∧
    (buildEngine exCfg exPolicyGw
      [("gateway.networking.k8s.io/gateway-name", "gw")]).namespace_ =
        exPolicyGw.namespace_ :=
  c1_engine_name_and_namespace exCfg exWorld exPolicyGw
    [("gateway.networking.k8s.io/gateway-name", "gw")]
    (buildEngine exCfg exPolicyGw
      [("gateway.networking.k8s.io/gateway-name", "gw")])
    (by decide)

/-- C2: setNotAccepted leaves no Programmed condition, and every status
patch written anywhere in a reconciliation pass satisfies the
Programmed-True-never-with-Accepted-False invariant. -/
theorem c2_accepted_false_excludes_programmed :
    (∀ conds gen r m,
       findCondition (setNotAcceptedConditions conds gen r m) "Programmed" = none) ∧
    (∀ cfg w policy? conds,
       Op.statusPatch conds ∈ (reconcile cfg w policy?).ops →
       conditionsMutexOK conds) :=
  ⟨fun conds _gen _ _ =>
      findCondition_removeStatusCondition_self
        (setStatusCondition conds _) "Programmed",
   fun cfg w policy? conds h =>
      mutexOK_statusPatch_reconcile cfg w policy? conds h⟩

/-- C2 witness: the status patch of a TargetNotFound pass satisfies the
invariant. -/
theorem c2_accepted_false_excludes_programmed_witness :
    conditionsMutexOK
      [{ type_ := "Accepted", status := .isFalse, observedGeneration := 1
         reason := "TargetNotFound", message := "Gateway \"gw\" not found" }] :=
  c2_accepted_false_excludes_programmed.2 exCfg exWorldNoGw (some exPolicyGw)
    [{ type_ := "Accepted", status := .isFalse, observedGeneration := 1
       reason := "TargetNotFound", message := "Gateway \"gw\" not found" }]
    (by decide)

/-- C3 counterexample: when the Engine CreateOrUpdate fails, the pass
returns the sync error and sets Programmed=False with reason
EngineSyncFailed, but does NOT set the Accepted condition to False (here
it remains absent), contradicting the claim. -/
theorem c3_counterexample :
    (reconcile exCfg exWorldSyncFail (some exPolicyGw)).error = some "boom" ∧
    findCondition (reconcile exCfg exWorldSyncFail (some exPolicyGw)).conditions
      "Accepted" = none ∧
    findCondition (reconcile exCfg exWorldSyncFail (some exPolicyGw)).conditions
      "Programmed" =
      some { type_ := "Programmed", status := .isFalse, observedGeneration := 1
             reason := "EngineSyncFailed"
             message := "Failed to create/update Engine: boom" } := by
  refine ⟨rfl, rfl, rfl⟩

/-- C3 (amended): Accepted is set to True exactly when target resolution
and Engine synthesis both succeed; resolution failures set Accepted=False
with one of the reasons TargetNotFound, NoParentGateway, InvalidParentRef,
InvalidTargetRef; a failed Engine create/update leaves the Accepted
condition unchanged and instead sets Programmed=False with reason
EngineSyncFailed. -/
theorem c3_accepted_condition_outcomes (cfg : WAFPolicyTranslatorConfig)
    (w : World) (p : Policy) (hdt : p.deletionTimestamp = none)
    (hge : w.targetGetError = none) (hpu : w.policyUpdateError = none) :
    (∀ ls, resolveTarget w p = .ok ls → w.engineSyncError = none →
       findCondition (reconcile cfg w (some p)).conditions "Accepted" =
         some { type_ := "Accepted", status := .isTrue, observedGeneration := p.generation
                reason := "Accepted", message := "WAFPolicy is accepted" }) ∧
    (∀ r m, resolveTarget w p = .error (r, m) →
       findCondition (reconcile cfg w (some p)).conditions "Accepted" =
         some { type_ := "Accepted", status := .isFalse, observedGeneration := p.generation
                reason := r, message := m } ∧
       (r = "TargetNotFound" ∨ r = "NoParentGateway" ∨ r = "InvalidParentRef" ∨
         r = "InvalidTargetRef")) ∧
    (∀ ls e, resolveTarget w p = .ok ls → w.engineSyncError = some e →
       findCondition (reconcile cfg w (some p)).conditions "Accepted" =
         findCondition p.conditions "Accepted" ∧
       findCondition (reconcile cfg w (some p)).conditions "Programmed" =
         some { type_ := "Programmed", status := .isFalse, observedGeneration := p.generation
                reason := "EngineSyncFailed"
                message := "Failed to create/update Engine: " ++ e }) := by
  have hrec := reconcile_steady cfg w p hdt hpu
  by_cases hf : wafPolicyFinalizer ∈ p.finalizers
  · rw [if_pos hf] at hrec
    obtain ⟨h1, h2, h3⟩ := dispatch_conditions_summary cfg w p hge
    refine ⟨?_, ?_, ?_⟩
    · intro ls h hsync
      rw [hrec]
      exact h1 ls h hsync
    · intro r m h
      rw [hrec]
      exact ⟨h2 r m h, resolveTarget_error_reason w p r m h⟩
    · intro ls e h hsync
      rw [hrec]
      exact h3 ls e h hsync
  · rw [if_neg hf] at hrec
    have hsp : steadyPolicy p =
        { p with finalizers := p.finalizers ++ [wafPolicyFinalizer] } := by
      unfold steadyPolicy
      rw [if_neg hf]
    obtain ⟨h1, h2, h3⟩ := dispatch_conditions_summary cfg w (steadyPolicy p) hge
    rw [resolveTarget_steadyPolicy] at h1 h2 h3
    rw [hsp] at h1 h2 h3 hrec
    refine ⟨?_, ?_, ?_⟩
    · intro ls h hsync
      rw [hrec]
      exact h1 ls h hsync
    · intro r m h
      rw [hrec]
      exact ⟨h2 r m h, resolveTarget_error_reason w p r m h⟩
    · intro ls e h hsync
      rw [hrec]
      exact h3 ls e h hsync

/-- C3 (amended) witness: on the healthy example world the pass sets
Accepted=True. -/
theorem c3_accepted_condition_outcomes_witness :
    findCondition (reconcile exCfg exWorld (some exPolicyGw)).conditions
      "Accepted" =
      some { type_ := "Accepted", status := .isTrue, observedGeneration := 1
             reason := "Accepted", message := "WAFPolicy is accepted" } :=
  (c3_accepted_condition_outcomes exCfg exWorld exPolicyGw rfl rfl rfl).1
    [("gateway.networking.k8s.io/gateway-name", "gw")] rfl rfl

theorem withOps_ops (pre : List Op) (o : Outcome) :
    (o.withOps pre).ops = pre ++ o.ops := rfl

/-- The condition writes and the Engine upsert of the HTTPRoute path, by
parent-reference shape. -/
theorem routeDispatchCases (cfg : WAFPolicyTranslatorConfig) (w : World)
    (q : Policy) (route : HTTPRoute) (hge : w.targetGetError = none)
    (hk : q.targetRefKind = "HTTPRoute")
    (hr : findRoute w q.namespace_ q.targetRefName = some route) :
    ((route.parentRefs = none ∨ route.parentRefs = some []) →
       (dispatchTargetKind cfg w q).conditions =
         setNotAcceptedConditions q.conditions q.generation "NoParentGateway"
           ("HTTPRoute \"" ++ q.targetRefName ++ "\" has no parentRefs")) ∧
    (∀ rest, route.parentRefs = some (ParentRef.malformed :: rest) →
       (dispatchTargetKind cfg w q).conditions =
         setNotAcceptedConditions q.conditions q.generation "InvalidParentRef"
           ("HTTPRoute \"" ++ q.targetRefName ++ "\" has invalid parentRef")) ∧
    (∀ rest, route.parentRefs = some (ParentRef.ref "" :: rest) →
       (dispatchTargetKind cfg w q).conditions =
         setNotAcceptedConditions q.conditions q.generation "InvalidParentRef"
           ("HTTPRoute \"" ++ q.targetRefName ++ "\" parentRef has no gateway name")) ∧
    (∀ g rest, route.parentRefs = some (ParentRef.ref g :: rest) → ¬(g = "") →
       Op.engineUpsert
           (buildEngine cfg q [("gateway.networking.k8s.io/gateway-name", g)]) ∈
         (dispatchTargetKind cfg w q).ops) := by
  rw [dispatchTargetKind_httproute cfg w q hk]
  unfold reconcileForHTTPRoute
  rw [hge]
  dsimp only
  rw [hr]
  dsimp only
  refine ⟨?_, ?_, ?_, ?_⟩
  · rintro (hpr | hpr) <;> rw [hpr] <;> rfl
  · intro rest hpr
    rw [hpr]
    rfl
  · intro rest hpr
    rw [hpr]
    dsimp only
    rw [if_pos rfl]
    rfl
  · intro g rest hpr hg
    rw [hpr]
    dsimp only
    rw [if_neg hg, withOps_ops]
    exact List.mem_append_right _ (engineUpsert_mem_ensureEngine cfg w q _)

/-- C4 counterexample: with an empty namespace, the Get of the upsert uses
"default" but the Create is issued with the desired object unchanged,
whose namespace is still "" (not the default namespace). -/
theorem c4_counterexample :
    (createOrUpdate exClientNotFound exObjNoNs).2 =
      [CUOp.get exObjNoNs.gvk "default" exObjNoNs.name,
       CUOp.create exObjNoNs] ∧
    exObjNoNs.namespace_ = "" ∧
    ¬(exObjNoNs.namespace_ = "default") := ⟨rfl, rfl, by decide⟩

/-- C4 (amended): createOrUpdate fails with a missing-identity error when
the GroupVersionKind is empty or the name is empty; with an empty
namespace, the default namespace is substituted for the get-by-identity
key, while the objects passed to Create/Update keep the empty
namespace. -/
theorem c4_missing_identity_and_namespace_default (c : CUClient) (d : UObj) :
    (d.gvk.isEmpty = true →
       createOrUpdate c d =
         (.error "desired object must have GroupVersionKind set", [])) ∧
    (d.gvk.isEmpty = false → d.name = "" →
       createOrUpdate c d = (.error "desired object must have a name set", [])) ∧
    (d.gvk.isEmpty = false → ¬(d.name = "") → d.namespace_ = "" →
       (createOrUpdate c d).2.head? = some (CUOp.get d.gvk "default" d.name) ∧
       (∀ o, CUOp.create o ∈ (createOrUpdate c d).2 → o.namespace_ = "") ∧
       (∀ o, CUOp.update o ∈ (createOrUpdate c d).2 → o.namespace_ = "")) := by
  refine ⟨?_, ?_, ?_⟩
  · intro h
    simp [createOrUpdate, h]
  · intro h hn
    simp [createOrUpdate, h, hn]
  · intro h hn hns
    cases hg : c.get d.gvk "default" d.name with
    | notFound =>
        cases hc : c.createErr with
        | some e =>
            refine ⟨?_, ?_, ?_⟩
            · simp [createOrUpdate, h, hn, hns, hg, hc]
            · intro o ho
              simp [createOrUpdate, h, hn, hns, hg, hc] at ho
              subst ho
              exact hns
            · intro o ho
              simp [createOrUpdate, h, hn, hns, hg, hc] at ho
        | none =>
            refine ⟨?_, ?_, ?_⟩
            · simp [createOrUpdate, h, hn, hns, hg, hc]
            · intro o ho
              simp [createOrUpdate, h, hn, hns, hg, hc] at ho
              subst ho
              exact hns
            · intro o ho
              simp [createOrUpdate, h, hn, hns, hg, hc] at ho
    | otherErr e =>
        refine ⟨?_, ?_, ?_⟩
        · simp [createOrUpdate, h, hn, hns, hg]
        · intro o ho
          simp [createOrUpdate, h, hn, hns, hg] at ho
        · intro o ho
          simp [createOrUpdate, h, hn, hns, hg] at ho
    | found rv =>
        cases hu : c.updateErr with
        | some e =>
            refine ⟨?_, ?_, ?_⟩
            · simp [createOrUpdate, h, hn, hns, hg, hu]
            · intro o ho
              simp [createOrUpdate, h, hn, hns, hg, hu] at ho
            · intro o ho
              simp [createOrUpdate, h, hn, hns, hg, hu] at ho
              subst ho
              rfl
        | none =>
            refine ⟨?_, ?_, ?_⟩
            · simp [createOrUpdate, h, hn, hns, hg, hu]
            · intro o ho
              simp [createOrUpdate, h, hn, hns, hg, hu] at ho
            · intro o ho
              simp [createOrUpdate, h, hn, hns, hg, hu] at ho
              subst ho
              rfl

/-- C4 witness: concrete upsert of an object with empty namespace. -/
theorem c4_missing_identity_and_namespace_default_witness :
    (createOrUpdate exClientNotFound exObjNoNs).2.head? =
      some (CUOp.get exObjNoNs.gvk "default" exObjNoNs.name) :=
  ((c4_missing_identity_and_namespace_default exClientNotFound exObjNoNs).2.2
    rfl (by decide) rfl).1

/-- C5: createOrUpdate gets by identity first; NotFound leads to a Create
of the desired object and success; Found leads to exactly one Update with
the store's resourceVersion copied onto the desired object, any update
error being surfaced unchanged (no internal retry). -/
theorem c5_upsert_get_create_update (c : CUClient) (d : UObj)
    (hg : d.gvk.isEmpty = false) (hn : ¬(d.name = "")) :
    (c.get d.gvk (if d.namespace_ = "" then "default" else d.namespace_) d.name =
        .notFound →
       c.createErr = none →
       createOrUpdate c d =
         (.ok (),
          [CUOp.get d.gvk (if d.namespace_ = "" then "default" else d.namespace_) d.name,
           CUOp.create d])) ∧
    (∀ rv,
       c.get d.gvk (if d.namespace_ = "" then "default" else d.namespace_) d.name =
         .found rv →
       createOrUpdate c d =
         ((match c.updateErr with
           | some e =>
               Except.error ("failed to update " ++ d.gvk.kind ++ "/" ++ d.name
                 ++ " in namespace "
                 ++ (if d.namespace_ = "" then "default" else d.namespace_)
                 ++ ": " ++ e)
           | none => Except.ok ()),
          [CUOp.get d.gvk (if d.namespace_ = "" then "default" else d.namespace_) d.name,
           CUOp.update { d with resourceVersion := rv }])) := by
  refine ⟨?_, ?_⟩
  · intro h hc
    simp [createOrUpdate, hg, hn, h, hc]
  · intro rv h
    cases hu : c.updateErr with
    | some e => simp [createOrUpdate, hg, hn, h, hu]
    | none => simp [createOrUpdate, hg, hn, h, hu]

/-- C5 witness: a conflicting concurrent writer makes the single update
fail and the error is surfaced. -/
theorem c5_upsert_get_create_update_witness :
    createOrUpdate exClientConflict exObj =
      (.error ("failed to update " ++ exObj.gvk.kind ++ "/" ++ exObj.name
         ++ " in namespace "
         ++ (if exObj.namespace_ = "" then "default" else exObj.namespace_)
         ++ ": "
         ++ "Operation cannot be fulfilled: please apply your changes to the latest version"),
       [CUOp.get exObj.gvk
          (if exObj.namespace_ = "" then "default" else exObj.namespace_) exObj.name,
        CUOp.update { exObj with resourceVersion := "7" }]) := by
  have h := (c5_upsert_get_create_update exClientConflict exObj rfl (by decide)).2 "7" rfl
  exact h

/-- C6: a pass on a policy whose deletion timestamp is set removes the
finalizer when present (updating the policy with only the finalizer list
changed) and otherwise does nothing; it returns success with no requeue
and performs no target Get, Engine upsert, status patch or event. -/
theorem c6_deletion_only_removes_finalizer (cfg : WAFPolicyTranslatorConfig)
    (w : World) (p : Policy) (hdt : p.deletionTimestamp.isSome = true)
    (hpu : w.policyUpdateError = none) :
    reconcile cfg w (some p) =
      if wafPolicyFinalizer ∈ p.finalizers then
        { requeue := false, error := none
          policy := some { p with finalizers := p.finalizers.filter (fun f => f ≠ wafPolicyFinalizer) }
          ops := [Op.updatePolicy { p with finalizers := p.finalizers.filter (fun f => f ≠ wafPolicyFinalizer) }] }
      else { requeue := false, error := none, policy := some p, ops := [] } := by
  unfold reconcile handleDeletion
  by_cases hf : wafPolicyFinalizer ∈ p.finalizers
  · simp [hdt, hf, hpu]
  · simp [hdt, hf]

/-- C6 witness: the deleted example policy only has its finalizer
removed. -/
theorem c6_deletion_only_removes_finalizer_witness :
    reconcile exCfg exWorld (some exPolicyDel) =
      if wafPolicyFinalizer ∈ exPolicyDel.finalizers then
        { requeue := false, error := none
          policy := some { exPolicyDel with finalizers := exPolicyDel.finalizers.filter (fun f => f ≠ wafPolicyFinalizer) }
          ops := [Op.updatePolicy { exPolicyDel with finalizers := exPolicyDel.finalizers.filter (fun f => f ≠ wafPolicyFinalizer) }] }
      else { requeue := false, error := none, policy := some exPolicyDel, ops := [] } :=
  c6_deletion_only_removes_finalizer exCfg exWorld exPolicyDel rfl rfl

/-- C7: a policy targeting a Gateway absent from its namespace gets
Accepted=False with reason TargetNotFound, a requeue is requested, and no
Engine create/update is performed. -/
theorem c7_gateway_target_not_found (cfg : WAFPolicyTranslatorConfig)
    (w : World) (p : Policy) (hdt : p.deletionTimestamp = none)
    (hk : p.targetRefKind = "Gateway") (hge : w.targetGetError = none)
    (hpu : w.policyUpdateError = none)
    (hgw : (p.namespace_, p.targetRefName) ∉ w.gateways) :
    (reconcile cfg w (some p)).requeue = true ∧
    findCondition (reconcile cfg w (some p)).conditions "Accepted" =
      some { type_ := "Accepted", status := .isFalse, observedGeneration := p.generation
             reason := "TargetNotFound"
             message := "Gateway \"" ++ p.targetRefName ++ "\" not found" } ∧
    (∀ e, Op.engineUpsert e ∉ (reconcile cfg w (some p)).ops) := by
  have hrec := reconcile_steady cfg w p hdt hpu
  by_cases hf : wafPolicyFinalizer ∈ p.finalizers
  · rw [if_pos hf] at hrec
    rw [hrec, dispatchTargetKind_gateway cfg w p hk,
      reconcileForGateway_notfound cfg w p hge hgw]
    refine ⟨rfl, ?_, ?_⟩
    · exact findCondition_setNotAccepted_accepted p.conditions p.generation _ _
    · intro e
      simp [notAcceptedOutcome, setNotAccepted]
  · rw [if_neg hf] at hrec
    have hsp : steadyPolicy p =
        { p with finalizers := p.finalizers ++ [wafPolicyFinalizer] } := by
      unfold steadyPolicy
      rw [if_neg hf]
    rw [hsp] at hrec
    rw [hrec,
      dispatchTargetKind_gateway cfg w
        { p with finalizers := p.finalizers ++ [wafPolicyFinalizer] } hk,
      reconcileForGateway_notfound cfg w
        { p with finalizers := p.finalizers ++ [wafPolicyFinalizer] } hge hgw]
    refine ⟨rfl, ?_, ?_⟩
    · exact findCondition_setNotAccepted_accepted p.conditions p.generation _ _
    · intro e
      simp [Outcome.withOps, notAcceptedOutcome, setNotAccepted]

/-- C7 witness: the example policy targeting a missing Gateway requests a
requeue. -/
theorem c7_gateway_target_not_found_witness :
    (reconcile exCfg exWorldNoGw (some exPolicyGw)).requeue = true :=
  (c7_gateway_target_not_found exCfg exWorldNoGw exPolicyGw rfl rfl rfl rfl
    (by decide)).1

/-- C8: for a policy targeting an existing HTTPRoute, an empty or absent
parentRefs list yields Accepted=False (NoParentGateway); a malformed or
nameless first parent yields Accepted=False (InvalidParentRef); otherwise
the first parent's name becomes the workload-selector label value on the
synthesized Engine. -/
theorem c8_route_parent_resolution (cfg : WAFPolicyTranslatorConfig)
    (w : World) (p : Policy) (route : HTTPRoute)
    (hdt : p.deletionTimestamp = none) (hk : p.targetRefKind = "HTTPRoute")
    (hge : w.targetGetError = none) (hpu : w.policyUpdateError = none)
    (hr : findRoute w p.namespace_ p.targetRefName = some route) :
    ((route.parentRefs = none ∨ route.parentRefs = some []) →
       findCondition (reconcile cfg w (some p)).conditions "Accepted" =
         some { type_ := "Accepted", status := .isFalse, observedGeneration := p.generation
                reason := "NoParentGateway"
                message := "HTTPRoute \"" ++ p.targetRefName ++ "\" has no parentRefs" }) ∧
    (∀ rest, route.parentRefs = some (ParentRef.malformed :: rest) →
       findCondition (reconcile cfg w (some p)).conditions "Accepted" =
         some { type_ := "Accepted", status := .isFalse, observedGeneration := p.generation
                reason := "InvalidParentRef"
                message := "HTTPRoute \"" ++ p.targetRefName ++ "\" has invalid parentRef" }) ∧
    (∀ rest, route.parentRefs = some (ParentRef.ref "" :: rest) →
       findCondition (reconcile cfg w (some p)).conditions "Accepted" =
         some { type_ := "Accepted", status := .isFalse, observedGeneration := p.generation
                reason := "InvalidParentRef"
                message := "HTTPRoute \"" ++ p.targetRefName ++ "\" parentRef has no gateway name" }) ∧
    (∀ g rest, route.parentRefs = some (ParentRef.ref g :: rest) → ¬(g = "") →
       ∃ e, Op.engineUpsert e ∈ (reconcile cfg w (some p)).ops ∧
         e.spec.workloadSelector = [("gateway.networking.k8s.io/gateway-name", g)]) := by
  have hrec := reconcile_steady cfg w p hdt hpu
  by_cases hf : wafPolicyFinalizer ∈ p.finalizers
  · rw [if_pos hf] at hrec
    obtain ⟨h1, h2, h3, h4⟩ := routeDispatchCases cfg w p route hge hk hr
    refine ⟨?_, ?_, ?_, ?_⟩
    · intro hpr
      rw [hrec, h1 hpr]
      exact findCondition_setNotAccepted_accepted p.conditions p.generation _ _
    · intro rest hpr
      rw [hrec, h2 rest hpr]
      exact findCondition_setNotAccepted_accepted p.conditions p.generation _ _
    · intro rest hpr
      rw [hrec, h3 rest hpr]
      exact findCondition_setNotAccepted_accepted p.conditions p.generation _ _
    · intro g rest hpr hgne
      rw [hrec]
      exact ⟨buildEngine cfg p [("gateway.networking.k8s.io/gateway-name", g)],
        h4 g rest hpr hgne, rfl⟩
  · rw [if_neg hf] at hrec
    have hsp : steadyPolicy p =
        { p with finalizers := p.finalizers ++ [wafPolicyFinalizer] } := by
      unfold steadyPolicy
      rw [if_neg hf]
    rw [hsp] at hrec
    obtain ⟨h1, h2, h3, h4⟩ := routeDispatchCases cfg w
      { p with finalizers := p.finalizers ++ [wafPolicyFinalizer] } route hge hk hr
    refine ⟨?_, ?_, ?_, ?_⟩
    · intro hpr
      rw [hrec, withOps_conditions, h1 hpr]
      exact findCondition_setNotAccepted_accepted p.conditions p.generation _ _
    · intro rest hpr
      rw [hrec, withOps_conditions, h2 rest hpr]
      exact findCondition_setNotAccepted_accepted p.conditions p.generation _ _
    · intro rest hpr
      rw [hrec, withOps_conditions, h3 rest hpr]
      exact findCondition_setNotAccepted_accepted p.conditions p.generation _ _
    · intro g rest hpr hgne
      rw [hrec, withOps_ops]
      exact ⟨buildEngine cfg
          { p with finalizers := p.finalizers ++ [wafPolicyFinalizer] }
          [("gateway.networking.k8s.io/gateway-name", g)],
        List.mem_append_right _ (h4 g rest hpr hgne), rfl⟩

/-- C8 witness: the example policy targets route "r2" whose parentRefs is
empty, yielding Accepted=False with reason NoParentGateway. -/
theorem c8_route_parent_resolution_witness :
    findCondition (reconcile exCfg exWorld (some exPolicyRoute)).conditions
      "Accepted" =
      some { type_ := "Accepted", status := .isFalse, observedGeneration := 1
             reason := "NoParentGateway"
             message := "HTTPRoute \"" ++ exPolicyRoute.targetRefName
               ++ "\" has no parentRefs" } :=
  (c8_route_parent_resolution exCfg exWorld exPolicyRoute
    { namespace_ := "default", name := "r2", parentRefs := some [] }
    rfl rfl rfl rfl rfl).1 (Or.inr rfl)

/-- C9: the watch fan-out returns exactly the keys of the listed policies
whose targetRef kind and name match the event, and the empty list when
the listing fails. -/
theorem c9_fanout_exact :
    (∀ kind name, findPoliciesForTarget none kind name = []) ∧
    (∀ ps kind name q,
       q ∈ findPoliciesForTarget (some ps) kind name ↔
       ∃ p, p ∈ ps ∧ p.targetRefKind = kind ∧ p.targetRefName = name ∧
         q = (p.namespace_, p.name)) := by
  constructor
  · intro kind name
    rfl
  · intro ps kind name q
    simp only [findPoliciesForTarget, List.mem_map, List.mem_filter,
      Bool.and_eq_true, decide_eq_true_eq]
    constructor
    · rintro ⟨p, ⟨hp, hk, hn⟩, rfl⟩
      exact ⟨p, hp, hk, hn, rfl⟩
    · rintro ⟨p, hp, hk, hn, rfl⟩
      exact ⟨p, ⟨hp, hk, hn⟩, rfl⟩

/-- C10: two translator configurations that differ only in
EnvoyClusterName synthesize identical Engines for every policy and
workload selector. -/
theorem c10_envoy_cluster_name_not_observed (cfg1 cfg2 : WAFPolicyTranslatorConfig)
    (p : Policy) (labels : List (String × String))
    (himg : cfg1.DefaultWasmImage = cfg2.DefaultWasmImage)
    (hpoll : cfg1.DefaultPollInterval = cfg2.DefaultPollInterval) :
    buildEngine cfg1 p labels = buildEngine cfg2 p labels := by
  unfold buildEngine
  rw [himg, hpoll]

/-- C10 witness: the two example configurations differing only in
EnvoyClusterName synthesize the same Engine. -/
theorem c10_envoy_cluster_name_not_observed_witness :
    buildEngine exCfg exPolicyGw [] = buildEngine exCfgOtherCluster exPolicyGw [] :=
  c10_envoy_cluster_name_not_observed exCfg exCfgOtherCluster exPolicyGw [] rfl rfl

end Coraza
